import Mathlib

/-!
Verification of py-vista-turbo-serial: a shallow embedding of the protocol
codec (`messages.py`), the event taxonomy (`events.py`) and the state-tracking
monitor (`state_monitor.py`), with theorems settling the specification claims.
Python machine-level details that matter here: `dict` lookup/update, `set`
add/remove, exceptions (`ValueError`, `KeyError`, `TypeError`,
`NotImplementedError` and the repo's own exception classes), and the
`'%2X'` string format (width 2, space padded, uppercase hex).
-/

namespace VistaTurbo

/-! ## events.py -/

/-- The classes participating in `SystemEvent.event_for_code` dispatch:
every (direct or indirect) subclass of `SystemEvent` in `events.py`,
including the intermediate category classes `AlarmEvent` and
`ArmDisarmEvent` (which define no `CODE`/`NAME` of their own and therefore
inherit `SystemEvent`'s defaults `CODE = 0`, `NAME = 'Unknown Event'`). -/
inductive SystemEventKind where
  | AlarmEvent
  | OtherAlarmRestore
  | RfLowBattery
  | RfLowBatteryRestore
  | OtherTrouble
  | OtherTroubleRestore
  | ArmDisarmEvent
  | LowBattery
  | LowBatteryRestore
  | AcFail
  | AcRestore
  | AlarmCancel
  | OtherBypass
  | OtherUnbypass
  | DayNightAlarm
  | DayNightRestore
  | FailToDisarm
  | FailToArm
  | FaultEvent
  | FaultRestoreEvent
  | LowBatteryExtended
  | LowBatteryRestoreExtended
  | PerimeterAlarm
  | EntryExitAlarm
  | InteriorFollowerAlarm
  | FireAlarm
  | AudiblePanicAlarm
  | SilentPanicAlarm
  | Aux24hrAlarm
  | DuressAlarm
  | ArmStay
  | Disarm
  | Arm
  deriving DecidableEq

namespace SystemEventKind

/-- The class attribute `CODE` of each kind; `AlarmEvent` and
`ArmDisarmEvent` inherit the `SystemEvent` default `CODE = 0`. -/
def CODE : SystemEventKind → Nat
  | AlarmEvent => 0
  | OtherAlarmRestore => 0x0e
  | RfLowBattery => 0x0f
  | RfLowBatteryRestore => 0x10
  | OtherTrouble => 0x11
  | OtherTroubleRestore => 0x12
  | ArmDisarmEvent => 0
  | LowBattery => 0x1a
  | LowBatteryRestore => 0x1b
  | AcFail => 0x1c
  | AcRestore => 0x1d
  | AlarmCancel => 0x20
  | OtherBypass => 0x21
  | OtherUnbypass => 0x22
  | DayNightAlarm => 0x23
  | DayNightRestore => 0x24
  | FailToDisarm => 0x27
  | FailToArm => 0x28
  | FaultEvent => 0x2b
  | FaultRestoreEvent => 0x2c
  | LowBatteryExtended => 0x29
  | LowBatteryRestoreExtended => 0x2a
  | PerimeterAlarm => 0
  | EntryExitAlarm => 1
  | InteriorFollowerAlarm => 4
  | FireAlarm => 6
  | AudiblePanicAlarm => 7
  | SilentPanicAlarm => 8
  | Aux24hrAlarm => 9
  | DuressAlarm => 0x0c
  | ArmStay => 0x15
  | Disarm => 0x16
  | Arm => 0x18

/-- The class attribute `NAME`; the two intermediates inherit the
`SystemEvent` default. -/
def NAME : SystemEventKind → String
  | AlarmEvent => "Unknown Event"
  | OtherAlarmRestore => "Other Alarm Restore"
  | RfLowBattery => "RF Low Battery"
  | RfLowBatteryRestore => "RF Low Battery Restore"
  | OtherTrouble => "Other Trouble"
  | OtherTroubleRestore => "Other Trouble Restore"
  | ArmDisarmEvent => "Unknown Event"
  | LowBattery => "Low Battery"
  | LowBatteryRestore => "Low Battery Restore"
  | AcFail => "AC Fail"
  | AcRestore => "AC Restore"
  | AlarmCancel => "Alarm Cancel"
  | OtherBypass => "Other Bypass"
  | OtherUnbypass => "Other Unbypass"
  | DayNightAlarm => "Day/Night Alarm"
  | DayNightRestore => "Day/Night Restore"
  | FailToDisarm => "Fail to Disarm"
  | FailToArm => "Fail to Arm"
  | FaultEvent => "Fault"
  | FaultRestoreEvent => "Fault Restore"
  | LowBatteryExtended => "Low Battery"
  | LowBatteryRestoreExtended => "Low Battery Restore"
  | PerimeterAlarm => "Perimeter Alarm"
  | EntryExitAlarm => "Entry/Exit Alarm"
  | InteriorFollowerAlarm => "Interior Follower Alarm"
  | FireAlarm => "Fire Alarm"
  | AudiblePanicAlarm => "Audible Panic Alarm"
  | SilentPanicAlarm => "Silent Panic Alarm"
  | Aux24hrAlarm => "24-Hour Auxiliary"
  | DuressAlarm => "Duress Alarm"
  | ArmStay => "Arm Stay/Home"
  | Disarm => "Disarm"
  | Arm => "Arm"

/-- The class attribute `IS_ZONE` (default `True`; `ArmDisarmEvent` and its
subclasses, and `AlarmCancel`, set it to `False`). -/
def IS_ZONE : SystemEventKind → Bool
  | ArmDisarmEvent => false
  | ArmStay => false
  | Disarm => false
  | Arm => false
  | AlarmCancel => false
  | _ => true

end SystemEventKind

/-- `subclasses_recursive(SystemEvent)`: CPython returns `__subclasses__()`
in class-definition order, direct subclasses first, then (appended) the
subclasses of each direct subclass in turn.  This is the exact iteration
order of the dispatch loop in `SystemEvent.event_for_code`. -/
def subclasses_recursive_SystemEvent : List SystemEventKind :=
  [.AlarmEvent, .OtherAlarmRestore, .RfLowBattery, .RfLowBatteryRestore,
   .OtherTrouble, .OtherTroubleRestore, .ArmDisarmEvent, .LowBattery,
   .LowBatteryRestore, .AcFail, .AcRestore, .AlarmCancel, .OtherBypass,
   .OtherUnbypass, .DayNightAlarm, .DayNightRestore, .FailToDisarm,
   .FailToArm, .FaultEvent, .FaultRestoreEvent, .LowBatteryExtended,
   .LowBatteryRestoreExtended, .PerimeterAlarm, .EntryExitAlarm,
   .InteriorFollowerAlarm, .FireAlarm, .AudiblePanicAlarm,
   .SilentPanicAlarm, .Aux24hrAlarm, .DuressAlarm, .ArmStay, .Disarm,
   .Arm]

/-- `EventTypes = Union[SystemEvent, UnknownEvent]`: a decoded event is
either an instance of a known kind (carrying `zone_or_user` and, for zone
events, the optional zone name) or an `UnknownEvent` carrying the raw code
and subject. -/
inductive EventTypes where
  | known (kind : SystemEventKind) (zone_or_user : Nat)
      (zone_or_user_name : Option String)
  | unknown (code : Nat) (zone_or_user : Nat)
  deriving DecidableEq

/-- `SystemEvent.event_for_code(event_code, zone_or_user, zones)`: scan
`subclasses_recursive(cls)` for the first class whose `CODE` equals the
event code; build it with the zone name looked up in `zones` when the kind
is a zone event; fall back to `UnknownEvent`. -/
def event_for_code (event_code : Nat) (zone_or_user : Nat)
    (zones : Nat → Option String) : EventTypes :=
  match subclasses_recursive_SystemEvent.find? (fun k => k.CODE == event_code) with
  | some klass =>
      if klass.IS_ZONE then .known klass zone_or_user (zones zone_or_user)
      else .known klass zone_or_user none
  | none => .unknown event_code zone_or_user

/-! ## messages.py: value types and exceptions -/

/-- `PartitionState` enum. -/
inductive PartitionState where
  | HOME
  | DISARMED
  | AWAY
  deriving DecidableEq

/-- `ZoneState.__init__` stores the raw numeric value and five booleans
derived from its low four bits.  The booleans are plain mutable instance
attributes in the source (the monitor later overwrites individual ones), so
they are separate fields here, not recomputed from the numeric value.
The source field named `open` is rendered `isOpen` (Lean keyword). -/
structure ZoneState where
  state_numeric : Nat
  closed : Bool
  isOpen : Bool
  trouble : Bool
  alarm : Bool
  bypassed : Bool
  deriving DecidableEq

/-- `ZoneState(state)`: `closed = state & 1 == 0`, `open = state & 1 == 1`,
`trouble = state & 2 == 2`, `alarm = state & 4 == 4`,
`bypassed = state & 8 == 8`. -/
def ZoneState.init (state : Nat) : ZoneState :=
  { state_numeric := state
    closed := state &&& 1 == 0
    isOpen := state &&& 1 == 1
    trouble := state &&& 2 == 2
    alarm := state &&& 4 == 4
    bypassed := state &&& 8 == 8 }

/-- `ZoneState.__str__`: join the names of the set flags with a pipe, in
source order closed, open, trouble, alarm, bypassed. -/
def ZoneState.str (z : ZoneState) : String :=
  String.intercalate "|" (List.filterMap id
    [if z.closed then some "CLOSED" else none,
     if z.isOpen then some "OPEN" else none,
     if z.trouble then some "TROUBLE" else none,
     if z.alarm then some "ALARM" else none,
     if z.bypassed then some "BYPASSED" else none])

/-- `ZoneState.__repr__`: built from the numeric value only. -/
def ZoneState.pyRepr (z : ZoneState) : String :=
  "<ZoneState(" ++ Nat.repr z.state_numeric ++ ")>"

/-- `ZoneState.__eq__`: compares the numeric values only. -/
def ZoneState.pyEq (a b : ZoneState) : Bool :=
  a.state_numeric == b.state_numeric

/-- `ZoneState.__lt__`: compares the numeric values only. -/
def ZoneState.pyLt (a b : ZoneState) : Bool :=
  a.state_numeric < b.state_numeric

/-- The exceptions the embedded code can raise.  The repo's own classes
(`InvalidMessageLengthException`, `MessageChecksumException`, the plain
`InvalidMessageException` used for a bad partition letter) keep their
payload fields; built-in Python exceptions carry the data needed to
identify the raise site. -/
inductive PyErr where
  | invalidMessageLength (raw_message : String) (expected_len actual_len : Nat)
  | messageChecksum (raw_message : String) (expected_crc actual_crc : String)
  | invalidMessage (error : String) (raw_message : String)
  | valueError (base : Nat) (literal : String)
  | typeErrorMissingArg (fn : String) (arg : String)
  | keyError (key : Nat)
  | notImplementedError (msg : String)
  | indexError
  deriving DecidableEq

/-! ## messages.py: numeric parsing / formatting helpers -/

/-- Value of one hexadecimal digit character (both cases), as accepted by
Python `int(_, 16)`: code point offsets 48 for `0`-`9`, 87 for `a`-`f`,
55 for `A`-`F`. -/
def hexDigitVal (c : Char) : Option Nat :=
  if '0' ≤ c ∧ c ≤ '9' then some (c.toNat - 48)
  else if 'a' ≤ c ∧ c ≤ 'f' then some (c.toNat - 87)
  else if 'A' ≤ c ∧ c ≤ 'F' then some (c.toNat - 55)
  else none

/-- Value of one decimal digit character, as accepted by `int(_)`. -/
def decDigitVal (c : Char) : Option Nat :=
  if '0' ≤ c ∧ c ≤ '9' then some (c.toNat - 48) else none

/-- Fold a digit list into a number in the given base, failing on a
non-digit. -/
def digitsToNat (digit : Char → Option Nat) (base : Nat) :
    List Char → Nat → Option Nat
  | [], acc => some acc
  | c :: cs, acc =>
      match digit c with
      | some d => digitsToNat digit base cs (acc * base + d)
      | none => none

/-- Python `int(s, 16)` restricted to the plain unsigned digit strings the
protocol uses: the empty string or any non-hex-digit character raises
`ValueError` (signs, base prefixes, underscores and surrounding whitespace,
which CPython would additionally accept, do not occur in frames). -/
def int_base16 (s : String) : Except PyErr Nat :=
  if s.data.isEmpty then .error (.valueError 16 s)
  else
    match digitsToNat hexDigitVal 16 s.data 0 with
    | some n => .ok n
    | none => .error (.valueError 16 s)

/-- Python `int(s)` (base 10), restricted the same way. -/
def int_base10 (s : String) : Except PyErr Nat :=
  if s.data.isEmpty then .error (.valueError 10 s)
  else
    match digitsToNat decDigitVal 10 s.data 0 with
    | some n => .ok n
    | none => .error (.valueError 10 s)

/-- Uppercase hexadecimal digit for a value below 16. -/
def hexUpperDigit (n : Nat) : Char :=
  if n < 10 then Char.ofNat (48 + n) else Char.ofNat (55 + n)

/-- Python `'%2X' % n` for `n < 256`: uppercase hex, width 2, padded on
the left with a SPACE (not a zero) when the value has a single digit. -/
def fmt2X (n : Nat) : String :=
  if n < 16 then String.mk [' ', hexUpperDigit n]
  else String.mk [hexUpperDigit (n / 16 % 16), hexUpperDigit (n % 16)]

/-- Zero-padded two-digit uppercase hex for `n < 256` - the "2 uppercase
hex digits" rendering the spec describes for the checksum field (and the
rendering used by the length field of every frame in the repo). -/
def toHex2 (n : Nat) : String :=
  String.mk [hexUpperDigit (n / 16 % 16), hexUpperDigit (n % 16)]

/-! ## messages.py: framing (`MessagePacket._parse_message`) -/

/-- Python `s[:-2]`. -/
def pyDropLast2 (s : String) : String :=
  String.mk (s.data.take (s.data.length - 2))

/-- Python `s[-2:]`. -/
def pyLast2 (s : String) : String :=
  String.mk (s.data.drop (s.data.length - 2))

/-- Python `s[a:b]` for nonnegative `a ≤ b`. -/
def pySlice (s : String) (a b : Nat) : String :=
  String.mk ((s.data.drop a).take (b - a))

/-- Sum of the code points (`ord`) of the characters of `s`. -/
def sumOrds (s : String) : Nat :=
  s.data.foldl (fun acc c => acc + c.toNat) 0

/-- The checksum byte of a frame: `-(sum(ord(c) for c in raw[:-2]) % 256)
& 0xFF`, i.e. the two's-complement negation of the byte sum of everything
but the trailing two characters. -/
def crcByte (raw : String) : Nat :=
  (256 - sumOrds (pyDropLast2 raw) % 256) % 256

/-- `MessagePacket._parse_message`: read the declared length from the
first two characters as hex and compare with the actual length; recompute
the checksum with `'%2X'` and compare with the trailing two characters;
then return `(raw[2], raw[3], raw[4:-4])`.  `raw[2]`/`raw[3]` raise
`IndexError` on a frame shorter than 4 characters (unreachable for frames
that pass both checks, but kept for fidelity). -/
def parse_message (raw : String) : Except PyErr (Char × Char × String) :=
  match int_base16 (pySlice raw 0 2) with
  | .error e => .error e
  | .ok msglen =>
    if raw.data.length ≠ msglen then
      .error (.invalidMessageLength raw msglen raw.data.length)
    else
      if fmt2X (crcByte raw) ≠ pyLast2 raw then
        .error (.messageChecksum raw (pyLast2 raw) (fmt2X (crcByte raw)))
      else
        match raw.data.get? 2, raw.data.get? 3 with
        | some msgtype, some subtype =>
            .ok (msgtype, subtype,
                 String.mk ((raw.data.drop 4).take (raw.data.length - 8)))
        | _, _ => .error .indexError

/-! ## messages.py: typed message variants and `MessagePacket.parse` -/

/-- The decoded message variants.  Mapping payloads (`partition_state`,
`zones`, `partitions`) are association lists in the construction order of
the Python dicts, keyed `1, 2, ...` by data position.
Note `systemEventNotification`: the class exists in the source with these
fields, but its `__init__` always raises (see `parse`), so `parse` never
actually produces this variant; the state monitor nevertheless has a
branch for it, and events delivered through it are modelled with this
constructor. -/
inductive ParsedMessage where
  | unknownMessage (raw_message data : String) (from_panel : Bool)
      (msg_type msg_subtype : Char)
  | armAway (raw_message data : String) (from_panel : Bool)
      (user : Nat) (user_code : String)
  | armHome (raw_message data : String) (from_panel : Bool)
      (user : Nat) (user_code : String)
  | disarm (raw_message data : String) (from_panel : Bool)
      (user : Nat) (user_code : String)
  | armingStatusRequest (raw_message data : String) (from_panel : Bool)
  | armingStatusReport (raw_message data : String) (from_panel : Bool)
      (partition_state : List (Nat × PartitionState))
  | zoneStatusRequest (raw_message data : String) (from_panel : Bool)
  | zoneStatusReport (raw_message data : String) (from_panel : Bool)
      (zones : List (Nat × ZoneState))
  | zonePartitionRequest (raw_message data : String) (from_panel : Bool)
  | zonePartitionReport (raw_message data : String) (from_panel : Bool)
      (partitions : List (Nat × Nat))
  | systemEventNotification (raw_message data : String) (from_panel : Bool)
      (event_type_raw : Nat) (zone_or_user : Nat) (event_type : EventTypes)
      (minute hour day month : Nat)
  deriving DecidableEq

/-- `string.ascii_uppercase` membership: `msgtype in ascii_uppercase`. -/
def isAsciiUppercase (c : Char) : Bool :=
  'A' ≤ c && c ≤ 'Z'

/-- Shared `__init__` body of `ArmAwayMessage` / `ArmHomeMessage` /
`DisarmMessage`: `user = int(data[0:2], 16)`, `user_code = data[2:]`. -/
def armMessageFields (data : String) : Except PyErr (Nat × String) :=
  match int_base16 (pySlice data 0 2) with
  | .error e => .error e
  | .ok user => .ok (user, String.mk (data.data.drop 2))

/-- `ArmingStatusReport.__init__`: one partition per data character,
`H`/`D`/`A`; any other letter raises `InvalidMessageException` naming the
character and the data string. -/
def armingStatusReportZones (raw_message data : String) :
    Except PyErr (List (Nat × PartitionState)) :=
  go data.data 0
where
  go : List Char → Nat → Except PyErr (List (Nat × PartitionState))
    | [], _ => .ok []
    | c :: cs, idx =>
      let st? : Except PyErr PartitionState :=
        if c = 'H' then .ok .HOME
        else if c = 'D' then .ok .DISARMED
        else if c = 'A' then .ok .AWAY
        else .error (.invalidMessage
          ("Invalid partition state code \"" ++ String.mk [c] ++
           "\" in Arming Status Report message with data: \"" ++ data ++ "\"")
          raw_message)
      match st? with
      | .error e => .error e
      | .ok st =>
        match go cs (idx + 1) with
        | .error e => .error e
        | .ok rest => .ok ((idx + 1, st) :: rest)

/-- `ZoneStatusReport.__init__`: one zone per data character,
`ZoneState(int(val, 16))`. -/
def zoneStatusReportZones (data : String) :
    Except PyErr (List (Nat × ZoneState)) :=
  go data.data 0
where
  go : List Char → Nat → Except PyErr (List (Nat × ZoneState))
    | [], _ => .ok []
    | c :: cs, idx =>
      match hexDigitVal c with
      | none => .error (.valueError 16 (String.mk [c]))
      | some v =>
        match go cs (idx + 1) with
        | .error e => .error e
        | .ok rest => .ok ((idx + 1, ZoneState.init v) :: rest)

/-- `ZonePartitionReport.__init__`: one partition number per data
character, `int(val)`. -/
def zonePartitionReportPartitions (data : String) :
    Except PyErr (List (Nat × Nat)) :=
  go data.data 0
where
  go : List Char → Nat → Except PyErr (List (Nat × Nat))
    | [], _ => .ok []
    | c :: cs, idx =>
      match decDigitVal c with
      | none => .error (.valueError 10 (String.mk [c]))
      | some v =>
        match go cs (idx + 1) with
        | .error e => .error e
        | .ok rest => .ok ((idx + 1, v) :: rest)

/-- `SystemEventNotification.__init__`: reads the event code
(`int(data[0:2], 16)`) and the subject (`int(data[2:4])`), then calls
`SystemEvent.event_for_code(self._event_type, self.zone_or_user)` -
messages.py line 379.  `event_for_code` is declared in events.py line 72
as `event_for_code(cls, event_code, zone_or_user, zones)`, so this call is
missing the required positional argument `zones` and CPython raises
`TypeError` there, before `minute`/`hour`/`day`/`month` are ever read. -/
def systemEventNotificationInit (raw_message data : String)
    (from_panel : Bool) : Except PyErr ParsedMessage :=
  match int_base16 (pySlice data 0 2) with
  | .error e => .error e
  | .ok _event_type =>
    match int_base10 (pySlice data 2 4) with
    | .error e => .error e
    | .ok _zone_or_user => .error (.typeErrorMissingArg "event_for_code" "zones")

/-- `MessagePacket.parse`: frame validation via `_parse_message`, direction
from the case of the type character, then first-match dispatch over
`MessagePacket.__subclasses__()` in class-definition order
(`UnknownMessage` is first but its inherited `MSG_TYPES`/`MSG_SUBTYPES`
are empty so it never matches), falling back to `UnknownMessage`. -/
def MessagePacket_parse (raw : String) : Except PyErr ParsedMessage :=
  match parse_message raw with
  | .error e => .error e
  | .ok (msgtype, subtype, data) =>
    let from_panel := isAsciiUppercase msgtype
    if (msgtype = 'A' ∨ msgtype = 'a') ∧ (subtype = 'A' ∨ subtype = 'a') then
      match armMessageFields data with
      | .error e => .error e
      | .ok (u, c) => .ok (.armAway raw data from_panel u c)
    else if (msgtype = 'A' ∨ msgtype = 'a') ∧ (subtype = 'H' ∨ subtype = 'h') then
      match armMessageFields data with
      | .error e => .error e
      | .ok (u, c) => .ok (.armHome raw data from_panel u c)
    else if (msgtype = 'A' ∨ msgtype = 'a') ∧ (subtype = 'D' ∨ subtype = 'd') then
      match armMessageFields data with
      | .error e => .error e
      | .ok (u, c) => .ok (.disarm raw data from_panel u c)
    else if msgtype = 'a' ∧ subtype = 's' then
      .ok (.armingStatusRequest raw data from_panel)
    else if msgtype = 'A' ∧ subtype = 'S' then
      match armingStatusReportZones raw data with
      | .error e => .error e
      | .ok ps => .ok (.armingStatusReport raw data from_panel ps)
    else if msgtype = 'z' ∧ subtype = 's' then
      .ok (.zoneStatusRequest raw data from_panel)
    else if msgtype = 'Z' ∧ subtype = 'S' then
      match zoneStatusReportZones data with
      | .error e => .error e
      | .ok zs => .ok (.zoneStatusReport raw data from_panel zs)
    else if msgtype = 'z' ∧ subtype = 'p' then
      .ok (.zonePartitionRequest raw data from_panel)
    else if msgtype = 'Z' ∧ subtype = 'P' then
      match zonePartitionReportPartitions data with
      | .error e => .error e
      | .ok ps => .ok (.zonePartitionReport raw data from_panel ps)
    else if msgtype = 'N' ∧ subtype = 'Q' then
      systemEventNotificationInit raw data from_panel
    else
      .ok (.unknownMessage raw data from_panel msgtype subtype)

/-- `ArmingStatusRequest.generate`. -/
def ArmingStatusRequest_generate : String := "08as0064"

/-- `ZoneStatusRequest.generate`. -/
def ZoneStatusRequest_generate : String := "08zs004B"

/-- `ZonePartitionRequest.generate`. -/
def ZonePartitionRequest_generate : String := "08zp004E"

/-! ## state_monitor.py: the state machine -/

/-- Python `dict` lookup on an association list whose keys are assigned at
most once (construction order `1, 2, ...`). -/
def dictGet {α : Type} (l : List (Nat × α)) (k : Nat) : Option α :=
  (l.find? (fun p => p.1 == k)).map (fun p => p.2)

/-- `d.update(new)` semantics on a map modelled as a function: keys of
`new` overwrite, all other keys keep their old value. -/
def dictUpdate {α : Type} (old : Nat → Option α) (new : List (Nat × α)) :
    Nat → Option α :=
  fun k => match dictGet new k with
  | some v => some v
  | none => old k

/-- A Python `set` of strings, modelled as a duplicate-free list in
insertion order (Python guarantees nothing about set order and the monitor
never relies on it; only membership, emptiness and size are observed). -/
def pySetAdd (ts : List String) (name : String) : List String :=
  if name ∈ ts then ts else ts ++ [name]

/-- The four mutable maps of `StateMonitor` (all empty at construction).
`zone_troubles` values are Python sets of cause-name strings. -/
structure MonitorState where
  arming_status : Nat → Option PartitionState
  zone_status : Nat → Option ZoneState
  zone_partitions : Nat → Option Nat
  zone_troubles : Nat → Option (List String)

/-- `StateMonitor.__init__`: every map empty. -/
def MonitorState.initial : MonitorState :=
  { arming_status := fun _ => none
    zone_status := fun _ => none
    zone_partitions := fun _ => none
    zone_troubles := fun _ => none }

/-- In-place mutation of the `ZoneState` object stored at key `z`
(`self.zone_status[z].<flag> = ...` rebinds one attribute of the stored
object; no other key aliases it). -/
def MonitorState.setZone (st : MonitorState) (z : Nat) (zs : ZoneState) :
    MonitorState :=
  { st with zone_status := fun x => if x = z then some zs else st.zone_status x }

/-- Replace the trouble-cause set stored at key `z`. -/
def MonitorState.setTroubles (st : MonitorState) (z : Nat) (ts : List String) :
    MonitorState :=
  { st with zone_troubles := fun x => if x = z then some ts else st.zone_troubles x }

/-- `isinstance(evt, AlarmEvent)`: true for `AlarmEvent` itself and its
subclasses. -/
def isAlarmEventInstance (k : SystemEventKind) : Bool :=
  k ∈ [SystemEventKind.AlarmEvent, .PerimeterAlarm, .EntryExitAlarm,
       .InteriorFollowerAlarm, .FireAlarm, .AudiblePanicAlarm,
       .SilentPanicAlarm, .Aux24hrAlarm, .DuressAlarm]

/-- `StateMonitor._handle_alarm`: if the zone is already in alarm, warn
and change nothing; otherwise set its `alarm` flag.  The initial
`self.zone_status[...]` lookup raises `KeyError` for an unknown zone. -/
def handle_alarm (st : MonitorState) (z : Nat) : Except PyErr MonitorState :=
  match st.zone_status z with
  | none => .error (.keyError z)
  | some zs =>
    if zs.alarm then .ok st
    else .ok (st.setZone z { zs with alarm := true })

/-- `StateMonitor._handle_alarm_restore`. -/
def handle_alarm_restore (st : MonitorState) (z : Nat) :
    Except PyErr MonitorState :=
  match st.zone_status z with
  | none => .error (.keyError z)
  | some zs =>
    if zs.alarm then .ok (st.setZone z { zs with alarm := false })
    else .ok st

/-- `StateMonitor._handle_zone_trouble`: if the zone's `trouble` flag is
set, add the event's `NAME` to the cause set unless already present;
otherwise add the `NAME` and set the flag.  Lookups of a missing zone key
raise `KeyError` at the corresponding source line (the flag read happens
before the cause-set access, which happens before any mutation). -/
def handle_zone_trouble (st : MonitorState) (name : String) (z : Nat) :
    Except PyErr MonitorState :=
  match st.zone_status z with
  | none => .error (.keyError z)
  | some zs =>
    match st.zone_troubles z with
    | none => .error (.keyError z)
    | some ts =>
      if zs.trouble then
        if name ∈ ts then .ok st
        else .ok (st.setTroubles z (pySetAdd ts name))
      else
        .ok ((st.setTroubles z (pySetAdd ts name)).setZone z { zs with trouble := true })

/-- `StateMonitor._handle_zone_trouble_restore`: only acts when the zone's
`trouble` flag is set; removes the event's own `NAME` from the cause set
when present (warning otherwise), then - in either case - clears the flag
if the set is empty.  When the flag is clear it warns and changes
nothing. -/
def handle_zone_trouble_restore (st : MonitorState) (name : String) (z : Nat) :
    Except PyErr MonitorState :=
  match st.zone_status z with
  | none => .error (.keyError z)
  | some zs =>
    if zs.trouble then
      match st.zone_troubles z with
      | none => .error (.keyError z)
      | some ts =>
        let ts' := if name ∈ ts then ts.erase name else ts
        if ts' = [] then
          .ok ((st.setTroubles z ts').setZone z { zs with trouble := false })
        else .ok (st.setTroubles z ts')
    else .ok st

/-- `StateMonitor._handle_zone_bypass`. -/
def handle_zone_bypass (st : MonitorState) (z : Nat) :
    Except PyErr MonitorState :=
  match st.zone_status z with
  | none => .error (.keyError z)
  | some zs =>
    if zs.bypassed then .ok st
    else .ok (st.setZone z { zs with bypassed := true })

/-- `StateMonitor._handle_zone_unbypass`. -/
def handle_zone_unbypass (st : MonitorState) (z : Nat) :
    Except PyErr MonitorState :=
  match st.zone_status z with
  | none => .error (.keyError z)
  | some zs =>
    if zs.bypassed then .ok (st.setZone z { zs with bypassed := false })
    else .ok st

/-- `StateMonitor._handle_zone_fault`: its first statement is
`raise NotImplementedError('Not implemented; also how to handle NC/NO
zones?')` - everything after it is dead code, so no state is read or
written. -/
def handle_zone_fault (_st : MonitorState) (_z : Nat) :
    Except PyErr MonitorState :=
  .error (.notImplementedError "Not implemented; also how to handle NC/NO zones?")

/-- `StateMonitor._handle_zone_fault_restore`: likewise raises
immediately. -/
def handle_zone_fault_restore (_st : MonitorState) (_z : Nat) :
    Except PyErr MonitorState :=
  .error (.notImplementedError "not implemented - also NC/NO?")

/-- The `isinstance` dispatch chain of `StateMonitor._handle_event`, in
source order, for an event of a known kind (`isinstance(evt, RfLowBattery)`
and the other leaf checks match exactly that class, which has no
subclasses; the `AlarmEvent` check matches the whole subtree). -/
def handle_known_event (st : MonitorState) (k : SystemEventKind) (z : Nat) :
    Except PyErr MonitorState :=
  if isAlarmEventInstance k then handle_alarm st z
  else if k = .OtherAlarmRestore then handle_alarm_restore st z
  else if k = .RfLowBattery ∨ k = .OtherTrouble ∨ k = .LowBattery then
    handle_zone_trouble st k.NAME z
  else if k = .RfLowBatteryRestore ∨ k = .OtherTroubleRestore ∨
      k = .LowBatteryRestore then
    handle_zone_trouble_restore st k.NAME z
  else if k = .OtherBypass then handle_zone_bypass st z
  else if k = .OtherUnbypass then handle_zone_unbypass st z
  else if k = .FaultEvent then handle_zone_fault st z
  else if k = .FaultRestoreEvent then handle_zone_fault_restore st z
  else .ok st

/-- `StateMonitor._handle_event`: `isinstance` dispatch in source order.
`UnknownEvent` instances match no branch and fall through to the
"un-handled" warning, as do the arm/disarm, AC, alarm-cancel, day/night
and fail-to-arm/disarm kinds. -/
def handle_event : MonitorState → EventTypes → Except PyErr MonitorState
  | st, .unknown _ _ => .ok st
  | st, .known k z _ => handle_known_event st k z

/-- One iteration of the message loop in `StateMonitor.run`:
`ArmingStatusReport` merges into `arming_status`; `ZoneStatusReport`
merges into `zone_status` and then - unconditionally, on *every* such
report - rebinds `zone_troubles` to a fresh dict with an empty set per
current `zone_status` key; `ZonePartitionReport` merges into
`zone_partitions`; `SystemEventNotification` defers to `_handle_event`;
the arm/disarm echoes, the requests and unknown messages only log. -/
def process_message (st : MonitorState) (msg : ParsedMessage) :
    Except PyErr MonitorState :=
  match msg with
  | .armingStatusReport _ _ _ ps =>
      .ok { st with arming_status := dictUpdate st.arming_status ps }
  | .zoneStatusReport _ _ _ zones =>
      let zone_status' := dictUpdate st.zone_status zones
      .ok { st with
            zone_status := zone_status'
            zone_troubles := fun x =>
              if (zone_status' x).isSome then some [] else none }
  | .zonePartitionReport _ _ _ ps =>
      .ok { st with zone_partitions := dictUpdate st.zone_partitions ps }
  | .systemEventNotification _ _ _ _ _ evt _ _ _ _ => handle_event st evt
  | _ => .ok st

/-- The message loop of `StateMonitor.run` over a finite prefix of the
stream: fold `process_message`, stopping at the first uncaught exception
(the loop body has no try/except). -/
def run_messages (st : MonitorState) : List ParsedMessage →
    Except PyErr MonitorState
  | [] => .ok st
  | m :: ms =>
    match process_message st m with
    | .error e => .error e
    | .ok st' => run_messages st' ms

/-- The monitor states reachable from the freshly constructed monitor by
some sequence of successfully processed decoded messages (system-event
messages carry their decoded event, so event deliveries are included). -/
inductive Reachable : MonitorState → Prop where
  | init : Reachable MonitorState.initial
  | step {s s' : MonitorState} {m : ParsedMessage} :
      Reachable s → process_message s m = .ok s' → Reachable s'

end VistaTurbo

deriving instance DecidableEq for Except

namespace VistaTurbo

/-! ## Statement-side helpers (test harness, used only to state theorems) -/

/-- Extract the success state of a monitor step (total, for building
concrete states in theorem statements). -/
def okState (r : Except PyErr MonitorState) : MonitorState :=
  match r with
  | .ok s => s
  | .error _ => MonitorState.initial

/-- A `SystemEventNotification` message carrying a decoded event of the
given kind, as the monitor's run loop receives it. -/
def senMsg (k : SystemEventKind) (z : Nat) : ParsedMessage :=
  .systemEventNotification "" "" true k.CODE z (.known k z none) 0 0 0 0

/-- A decoded `ZoneStatusReport` with the given zones map. -/
def zoneReportMsg (zs : List (Nat × ZoneState)) : ParsedMessage :=
  .zoneStatusReport "" "" true zs

/-- Whether a parse outcome is the checksum rejection. -/
def isChecksumError {α : Type} : Except PyErr α → Bool
  | .error (.messageChecksum _ _ _) => true
  | _ => false

/-- Variant recognizer for `ZoneStatusReport`. -/
def ParsedMessage.isZoneStatusReport : ParsedMessage → Bool
  | .zoneStatusReport _ _ _ _ => true
  | _ => false

/-- Variant recognizer for `ZoneStatusRequest`. -/
def ParsedMessage.isZoneStatusRequest : ParsedMessage → Bool
  | .zoneStatusRequest _ _ _ => true
  | _ => false

/-- Test-harness frame builder, used only to state theorems about the
parser: the frame with type character `t`, subtype character `s`, wire
payload `mid` (every character between the subtype and the checksum), a
zero-padded uppercase-hex length field and the `'%2X'` checksum that
`_parse_message` recomputes.  Every frame appearing in the repo has this
shape. -/
def buildFrame (t s : Char) (mid : String) : String :=
  let body := toHex2 (mid.data.length + 6) ++ String.mk [t, s] ++ mid
  body ++ fmt2X ((256 - sumOrds body % 256) % 256)

/-- The test suite's 104-character `ZoneStatusReport` frame (type `Z`,
subtype `S`). -/
def zsUpperFrame : String := "68ZS1B00" ++ String.mk (List.replicate 92 '0') ++ "0072"

/-- The same frame with the type and subtype letters lowercased and the
checksum adjusted accordingly (each lowercased letter adds 32 to the byte
sum, so the checksum byte drops by 64). -/
def zsLowerFrame : String := "68zs1B00" ++ String.mk (List.replicate 92 '0') ++ "0032"

/-- The kinds whose class bodies in events.py assign `CODE` explicitly:
every member of the dispatch set except the intermediates `AlarmEvent` and
`ArmDisarmEvent` (which inherit `SystemEvent.CODE = 0`). -/
def declaredCodeKinds : List SystemEventKind :=
  [.OtherAlarmRestore, .RfLowBattery, .RfLowBatteryRestore,
   .OtherTrouble, .OtherTroubleRestore, .LowBattery,
   .LowBatteryRestore, .AcFail, .AcRestore, .AlarmCancel, .OtherBypass,
   .OtherUnbypass, .DayNightAlarm, .DayNightRestore, .FailToDisarm,
   .FailToArm, .FaultEvent, .FaultRestoreEvent, .LowBatteryExtended,
   .LowBatteryRestoreExtended, .PerimeterAlarm, .EntryExitAlarm,
   .InteriorFollowerAlarm, .FireAlarm, .AudiblePanicAlarm,
   .SilentPanicAlarm, .Aux24hrAlarm, .DuressAlarm, .ArmStay, .Disarm,
   .Arm]

end VistaTurbo

namespace VistaTurbo

/-! ## Concrete states used in counterexamples and witnesses -/

/-- Monitor state after one zone snapshot reporting zone 1 closed. -/
def stW1 : MonitorState :=
  okState (process_message MonitorState.initial (zoneReportMsg [(1, ZoneState.init 0)]))

/-- `stW1` after an `RfLowBattery` trouble event for zone 1. -/
def stW2 : MonitorState :=
  okState (process_message stW1 (senMsg .RfLowBattery 1))

/-- Monitor state after one zone snapshot reporting zone 1 with its
trouble bit set (`ZoneState(2)`). -/
def stC4x : MonitorState :=
  okState (process_message MonitorState.initial (zoneReportMsg [(1, ZoneState.init 2)]))

/-- Monitor state after a zone snapshot covering zones 1-14 (all closed). -/
def st14 : MonitorState :=
  okState (process_message MonitorState.initial
    (zoneReportMsg ((List.range 14).map (fun i => (i + 1, ZoneState.init 0)))))

/-- `stW1` after the alarm event of `handle_event stW1` on a
`PerimeterAlarm` for zone 1. -/
def stC10w : MonitorState :=
  okState (handle_event stW1 (.known .PerimeterAlarm 1 none))

/-- Monitor state after one zone snapshot reporting zone 1 with trouble
bit set, used to instantiate the snapshot-effect theorem. -/
def stC6w : MonitorState :=
  okState (process_message MonitorState.initial
    (.zoneStatusReport "" "" true [(1, ZoneState.init 2)]))

/-! ## Invariant and transition-shape predicates -/

/-- Non-empty trouble-cause sets only at zones whose stored trouble flag
is set. -/
def TroubleInv (s : MonitorState) : Prop :=
  ∀ z ts, s.zone_troubles z = some ts → ts ≠ [] →
    ∃ zs, s.zone_status z = some zs ∧ zs.trouble = true

/-- `zs'` differs from `zs` in exactly one of the three monitor-mutated
flags. -/
def ZoneFlip (zs zs' : ZoneState) : Prop :=
  zs' = { zs with alarm := !zs.alarm } ∨
  zs' = { zs with trouble := !zs.trouble } ∨
  zs' = { zs with bypassed := !zs.bypassed }

/-! ## Helper lemmas -/

lemma setZone_zone_troubles (st : MonitorState) (z : Nat) (zs : ZoneState) :
    (st.setZone z zs).zone_troubles = st.zone_troubles := rfl

lemma setTroubles_zone_status (st : MonitorState) (z : Nat) (ts : List String) :
    (st.setTroubles z ts).zone_status = st.zone_status := rfl

lemma setZone_zone_status_self (st : MonitorState) (z : Nat) (zs : ZoneState) :
    (st.setZone z zs).zone_status z = some zs := by
  simp [MonitorState.setZone]

lemma setZone_zone_status_ne (st : MonitorState) (z : Nat) (zs : ZoneState)
    (x : Nat) (hx : x ≠ z) : (st.setZone z zs).zone_status x = st.zone_status x := by
  simp [MonitorState.setZone, hx]

lemma setTroubles_zone_troubles_self (st : MonitorState) (z : Nat) (ts : List String) :
    (st.setTroubles z ts).zone_troubles z = some ts := by
  simp [MonitorState.setTroubles]

lemma setTroubles_zone_troubles_ne (st : MonitorState) (z : Nat) (ts : List String)
    (x : Nat) (hx : x ≠ z) :
    (st.setTroubles z ts).zone_troubles x = st.zone_troubles x := by
  simp [MonitorState.setTroubles, hx]

lemma hexDigitVal_hexUpperDigit : ∀ d : Fin 16,
    hexDigitVal (hexUpperDigit d.val) = some d.val := by decide

lemma toHex2_data (n : Nat) :
    (toHex2 n).data = [hexUpperDigit (n / 16 % 16), hexUpperDigit (n % 16)] := rfl

lemma int_base16_toHex2 (n : Nat) (h : n < 256) : int_base16 (toHex2 n) = .ok n := by
  have h1 : n / 16 < 16 := by omega
  have hd1 : n / 16 % 16 = n / 16 := Nat.mod_eq_of_lt h1
  have e1 : hexDigitVal (hexUpperDigit (n / 16)) = some (n / 16) :=
    hexDigitVal_hexUpperDigit ⟨n / 16, h1⟩
  have e2 : hexDigitVal (hexUpperDigit (n % 16)) = some (n % 16) :=
    hexDigitVal_hexUpperDigit ⟨n % 16, Nat.mod_lt n (by norm_num)⟩
  unfold int_base16
  rw [toHex2_data, hd1]
  have hne : ([hexUpperDigit (n / 16), hexUpperDigit (n % 16)] : List Char).isEmpty
      = false := rfl
  simp only [hne, Bool.false_eq_true, if_false, ite_false, digitsToNat, e1, e2]
  congr 1
  omega

lemma fmt2X_data_length (n : Nat) : (fmt2X n).data.length = 2 := by
  unfold fmt2X
  split <;> rfl

/-- `_parse_message` accepts every harness-built frame and splits it into
its type and subtype characters and its data slice `mid[:-2]`
(`raw[4:-4]` drops the two filler characters before the checksum). -/
lemma parse_message_buildFrame (t s : Char) (mid : String)
    (hlen : mid.data.length + 6 ≤ 255) :
    parse_message (buildFrame t s mid) = .ok (t, s, pyDropLast2 mid) := by
  set L := mid.data.length + 6 with hL
  set body := toHex2 L ++ String.mk [t, s] ++ mid with hbody
  set cc := fmt2X ((256 - sumOrds body % 256) % 256) with hcc
  have hfd : (buildFrame t s mid).data = body.data ++ cc.data := rfl
  have hbd : body.data = (toHex2 L).data ++ [t, s] ++ mid.data := rfl
  have hccl : cc.data.length = 2 := fmt2X_data_length _
  have hbl : body.data.length = mid.data.length + 4 := by
    rw [hbd, toHex2_data]
    simp only [List.length_append, List.length_cons, List.length_nil]
    omega
  have hflen : (buildFrame t s mid).data.length = L := by
    rw [hfd, List.length_append, hbl, hccl, hL]
  have hslice : pySlice (buildFrame t s mid) 0 2 = toHex2 L := rfl
  have hint : int_base16 (pySlice (buildFrame t s mid) 0 2)
      = .ok (buildFrame t s mid).data.length := by
    rw [hslice, hflen]
    exact int_base16_toHex2 L (by omega)
  have hdrop : pyDropLast2 (buildFrame t s mid) = String.mk body.data := by
    unfold pyDropLast2
    rw [hfd]
    rw [show (body.data ++ cc.data).length - 2 = body.data.length by
      rw [List.length_append, hccl]; omega]
    rw [List.take_left]
  have hlast : pyLast2 (buildFrame t s mid) = cc := by
    unfold pyLast2
    rw [hfd]
    rw [show (body.data ++ cc.data).length - 2 = body.data.length by
      rw [List.length_append, hccl]; omega]
    rw [List.drop_left]
  have hcrc : fmt2X (crcByte (buildFrame t s mid)) = cc := by
    unfold crcByte
    rw [hdrop]
  have hget2 : (buildFrame t s mid).data.get? 2 = some t := rfl
  have hget3 : (buildFrame t s mid).data.get? 3 = some s := rfl
  have hdrop4 : (buildFrame t s mid).data.drop 4 = mid.data ++ cc.data := rfl
  have hsub8 : (buildFrame t s mid).data.length - 8 = mid.data.length - 2 := by
    rw [hflen, hL]
    omega
  have hdata : String.mk (((buildFrame t s mid).data.drop 4).take
      ((buildFrame t s mid).data.length - 8)) = pyDropLast2 mid := by
    rw [hdrop4, hsub8, List.take_append_of_le_length (Nat.sub_le _ _)]
    rfl
  unfold parse_message
  split
  · rename_i e he
    rw [hint] at he
    cases he
  · rename_i msglen hok
    rw [hint] at hok
    cases hok
    rw [if_neg (show ¬((buildFrame t s mid).data.length
      ≠ (buildFrame t s mid).data.length) by simp)]
    rw [hcrc, hlast]
    rw [if_neg (show ¬(cc ≠ cc) by simp)]
    rw [hget2, hget3]
    exact congrArg (fun d => (Except.ok (t, s, d) : Except PyErr (Char × Char × String))) hdata

lemma armMessageFields_eq (d : String) (u : Nat)
    (hu : int_base16 (pySlice d 0 2) = .ok u) :
    armMessageFields d = .ok (u, String.mk (d.data.drop 2)) := by
  unfold armMessageFields
  rw [hu]

end VistaTurbo

namespace VistaTurbo

lemma troubleInv_initial : TroubleInv MonitorState.initial := by
  intro z ts hts
  simp [MonitorState.initial] at hts

lemma troubleInv_setZone {st : MonitorState} (hI : TroubleInv st) (z : Nat)
    {zs zs' : ZoneState} (hzs : st.zone_status z = some zs)
    (htr : zs'.trouble = zs.trouble) : TroubleInv (st.setZone z zs') := by
  intro x ts hts hne
  rw [setZone_zone_troubles] at hts
  obtain ⟨zs0, hzs0, ht0⟩ := hI x ts hts hne
  by_cases hx : x = z
  · subst hx
    rw [hzs] at hzs0
    cases hzs0
    exact ⟨zs', setZone_zone_status_self st x zs', htr.trans ht0⟩
  · rw [← setZone_zone_status_ne st z zs' x hx] at hzs0
    exact ⟨zs0, hzs0, ht0⟩

lemma troubleInv_handle_alarm {st st' : MonitorState} {z : Nat}
    (h : handle_alarm st z = .ok st') (hI : TroubleInv st) : TroubleInv st' := by
  unfold handle_alarm at h
  cases hzs : st.zone_status z <;> rw [hzs] at h
  · cases h
  · rename_i zs
    by_cases ha : zs.alarm <;> simp [ha] at h <;> subst h
    · exact hI
    · exact troubleInv_setZone hI z hzs rfl

lemma troubleInv_handle_alarm_restore {st st' : MonitorState} {z : Nat}
    (h : handle_alarm_restore st z = .ok st') (hI : TroubleInv st) : TroubleInv st' := by
  unfold handle_alarm_restore at h
  cases hzs : st.zone_status z <;> rw [hzs] at h
  · cases h
  · rename_i zs
    by_cases ha : zs.alarm <;> simp [ha] at h <;> subst h
    · exact troubleInv_setZone hI z hzs rfl
    · exact hI

lemma troubleInv_handle_zone_bypass {st st' : MonitorState} {z : Nat}
    (h : handle_zone_bypass st z = .ok st') (hI : TroubleInv st) : TroubleInv st' := by
  unfold handle_zone_bypass at h
  cases hzs : st.zone_status z <;> rw [hzs] at h
  · cases h
  · rename_i zs
    by_cases ha : zs.bypassed <;> simp [ha] at h <;> subst h
    · exact hI
    · exact troubleInv_setZone hI z hzs rfl

lemma troubleInv_handle_zone_unbypass {st st' : MonitorState} {z : Nat}
    (h : handle_zone_unbypass st z = .ok st') (hI : TroubleInv st) : TroubleInv st' := by
  unfold handle_zone_unbypass at h
  cases hzs : st.zone_status z <;> rw [hzs] at h
  · cases h
  · rename_i zs
    by_cases ha : zs.bypassed <;> simp [ha] at h <;> subst h
    · exact troubleInv_setZone hI z hzs rfl
    · exact hI

lemma troubleInv_handle_zone_trouble {st st' : MonitorState} {name : String} {z : Nat}
    (h : handle_zone_trouble st name z = .ok st') (hI : TroubleInv st) : TroubleInv st' := by
  unfold handle_zone_trouble at h
  cases hzs : st.zone_status z <;> rw [hzs] at h
  · cases h
  · rename_i zs
    cases hts : st.zone_troubles z <;> rw [hts] at h
    · cases h
    · rename_i ts
      by_cases htr : zs.trouble <;> simp [htr] at h
      · by_cases hmem : name ∈ ts <;> simp [hmem] at h <;> subst h
        · exact hI
        · intro x ts2 hts2 hne2
          by_cases hx : x = z
          · subst hx
            exact ⟨zs, hzs, htr⟩
          · rw [setTroubles_zone_troubles_ne st z _ x hx] at hts2
            exact hI x ts2 hts2 hne2
      · subst h
        intro x ts2 hts2 hne2
        by_cases hx : x = z
        · subst hx
          exact ⟨{ zs with trouble := true }, setZone_zone_status_self _ x _, rfl⟩
        · rw [setZone_zone_troubles, setTroubles_zone_troubles_ne st z _ x hx] at hts2
          obtain ⟨zs0, hzs0, ht0⟩ := hI x ts2 hts2 hne2
          refine ⟨zs0, ?_, ht0⟩
          rw [setZone_zone_status_ne _ z _ x hx, setTroubles_zone_status]
          exact hzs0

lemma troubleInv_handle_zone_trouble_restore {st st' : MonitorState} {name : String}
    {z : Nat} (h : handle_zone_trouble_restore st name z = .ok st')
    (hI : TroubleInv st) : TroubleInv st' := by
  unfold handle_zone_trouble_restore at h
  cases hzs : st.zone_status z <;> rw [hzs] at h
  · cases h
  · rename_i zs
    by_cases htr : zs.trouble <;> simp only [htr, if_true, if_false, Bool.false_eq_true] at h
    · cases hts : st.zone_troubles z <;> rw [hts] at h
      · cases h
      · rename_i ts
        by_cases hemp : (if name ∈ ts then ts.erase name else ts) = []
        · simp only [hemp, ite_true, if_true, eq_self_iff_true, Except.ok.injEq] at h
          subst h
          intro x ts2 hts2 hne2
          by_cases hx : x = z
          · subst hx
            rw [setZone_zone_troubles, setTroubles_zone_troubles_self] at hts2
            cases hts2
            exact absurd rfl hne2
          · rw [setZone_zone_troubles, setTroubles_zone_troubles_ne st z _ x hx] at hts2
            obtain ⟨zs0, hzs0, ht0⟩ := hI x ts2 hts2 hne2
            refine ⟨zs0, ?_, ht0⟩
            rw [setZone_zone_status_ne _ z _ x hx, setTroubles_zone_status]
            exact hzs0
        · simp only [hemp, ite_false, if_false, Except.ok.injEq] at h
          subst h
          intro x ts2 hts2 hne2
          by_cases hx : x = z
          · subst hx
            rw [setTroubles_zone_status]
            exact ⟨zs, hzs, htr⟩
          · rw [setTroubles_zone_troubles_ne st z _ x hx] at hts2
            obtain ⟨zs0, hzs0, ht0⟩ := hI x ts2 hts2 hne2
            refine ⟨zs0, ?_, ht0⟩
            rw [setTroubles_zone_status]
            exact hzs0
    · cases h
      exact hI

lemma troubleInv_handle_event {st st' : MonitorState} {evt : EventTypes}
    (h : handle_event st evt = .ok st') (hI : TroubleInv st) : TroubleInv st' := by
  cases evt with
  | unknown c zu =>
    cases h
    exact hI
  | known k z name =>
    replace h : handle_known_event st k z = .ok st' := h
    unfold handle_known_event at h
    by_cases h1 : isAlarmEventInstance k
    · rw [if_pos h1] at h
      exact troubleInv_handle_alarm h hI
    · rw [if_neg h1] at h
      by_cases h2 : k = .OtherAlarmRestore
      · rw [if_pos h2] at h
        exact troubleInv_handle_alarm_restore h hI
      · rw [if_neg h2] at h
        by_cases h3 : k = .RfLowBattery ∨ k = .OtherTrouble ∨ k = .LowBattery
        · rw [if_pos h3] at h
          exact troubleInv_handle_zone_trouble h hI
        · rw [if_neg h3] at h
          by_cases h4 : k = .RfLowBatteryRestore ∨ k = .OtherTroubleRestore ∨
              k = .LowBatteryRestore
          · rw [if_pos h4] at h
            exact troubleInv_handle_zone_trouble_restore h hI
          · rw [if_neg h4] at h
            by_cases h5 : k = .OtherBypass
            · rw [if_pos h5] at h
              exact troubleInv_handle_zone_bypass h hI
            · rw [if_neg h5] at h
              by_cases h6 : k = .OtherUnbypass
              · rw [if_pos h6] at h
                exact troubleInv_handle_zone_unbypass h hI
              · rw [if_neg h6] at h
                by_cases h7 : k = .FaultEvent
                · rw [if_pos h7] at h
                  cases h
                · rw [if_neg h7] at h
                  by_cases h8 : k = .FaultRestoreEvent
                  · rw [if_pos h8] at h
                    cases h
                  · rw [if_neg h8] at h
                    cases h
                    exact hI

lemma troubleInv_process_message {st st' : MonitorState} {m : ParsedMessage}
    (h : process_message st m = .ok st') (hI : TroubleInv st) : TroubleInv st' := by
  cases m with
  | armingStatusReport r d f ps =>
    cases h
    exact fun z ts hts hne => hI z ts hts hne
  | zoneStatusReport r d f zones =>
    cases h
    intro z ts hts hne
    simp only at hts
    split at hts
    · cases hts
      exact absurd rfl hne
    · cases hts
  | zonePartitionReport r d f ps =>
    cases h
    exact fun z ts hts hne => hI z ts hts hne
  | systemEventNotification r d f etr zu evt mi ho da mo =>
    exact troubleInv_handle_event h hI
  | unknownMessage r d f t s => cases h; exact hI
  | armAway r d f u c => cases h; exact hI
  | armHome r d f u c => cases h; exact hI
  | disarm r d f u c => cases h; exact hI
  | armingStatusRequest r d f => cases h; exact hI
  | zoneStatusRequest r d f => cases h; exact hI
  | zonePartitionRequest r d f => cases h; exact hI

lemma reachable_troubleInv (s : MonitorState) (hs : Reachable s) : TroubleInv s := by
  induction hs with
  | init => exact troubleInv_initial
  | step hr hok ih => exact troubleInv_process_message hok ih

end VistaTurbo

namespace VistaTurbo

lemma zone_status_cases_setZone (st : MonitorState) (z' : Nat) (zs zs' : ZoneState)
    (hzs : st.zone_status z' = some zs) (hf : ZoneFlip zs zs') (z : Nat) :
    (st.setZone z' zs').zone_status z = st.zone_status z ∨
    ∃ zs0, st.zone_status z = some zs0 ∧
      ∃ zs1, (st.setZone z' zs').zone_status z = some zs1 ∧ ZoneFlip zs0 zs1 := by
  by_cases hx : z = z'
  · subst hx
    exact Or.inr ⟨zs, hzs, zs', setZone_zone_status_self st z zs', hf⟩
  · exact Or.inl (setZone_zone_status_ne st z' zs' z hx)

lemma handle_event_zone_status_cases {st st' : MonitorState} {evt : EventTypes}
    (h : handle_event st evt = .ok st') (z : Nat) :
    st'.zone_status z = st.zone_status z ∨
    ∃ zs0, st.zone_status z = some zs0 ∧
      ∃ zs1, st'.zone_status z = some zs1 ∧ ZoneFlip zs0 zs1 := by
  cases evt with
  | unknown c zu => cases h; exact Or.inl rfl
  | known k z' name =>
    replace h : handle_known_event st k z' = .ok st' := h
    unfold handle_known_event at h
    by_cases h1 : isAlarmEventInstance k
    · rw [if_pos h1] at h
      unfold handle_alarm at h
      cases hzs : st.zone_status z' <;> rw [hzs] at h
      · cases h
      · rename_i zs
        by_cases ha : zs.alarm <;> simp [ha] at h <;> subst h
        · exact Or.inl rfl
        · refine zone_status_cases_setZone st z' zs _ hzs (Or.inl ?_) z
          have ha' : zs.alarm = false := by simpa using ha
          rw [ha']
          rfl
    · rw [if_neg h1] at h
      by_cases h2 : k = .OtherAlarmRestore
      · rw [if_pos h2] at h
        unfold handle_alarm_restore at h
        cases hzs : st.zone_status z' <;> rw [hzs] at h
        · cases h
        · rename_i zs
          by_cases ha : zs.alarm <;> simp [ha] at h <;> subst h
          · refine zone_status_cases_setZone st z' zs _ hzs (Or.inl ?_) z
            rw [ha]
            rfl
          · exact Or.inl rfl
      · rw [if_neg h2] at h
        by_cases h3 : k = .RfLowBattery ∨ k = .OtherTrouble ∨ k = .LowBattery
        · rw [if_pos h3] at h
          unfold handle_zone_trouble at h
          cases hzs : st.zone_status z' <;> rw [hzs] at h
          · cases h
          · rename_i zs
            cases hts : st.zone_troubles z' <;> rw [hts] at h
            · cases h
            · rename_i ts
              by_cases htr : zs.trouble <;> simp [htr] at h
              · by_cases hmem : SystemEventKind.NAME k ∈ ts <;> simp [hmem] at h <;>
                  subst h
                · exact Or.inl rfl
                · exact Or.inl (congrFun (setTroubles_zone_status st z' _) z)
              · subst h
                have htr' : zs.trouble = false := by simpa using htr
                have hcase := zone_status_cases_setZone
                  (st.setTroubles z' (pySetAdd ts (SystemEventKind.NAME k))) z' zs
                  { zs with trouble := true }
                  (by rw [setTroubles_zone_status]; exact hzs)
                  (Or.inr (Or.inl (by rw [htr']; rfl))) z
                rcases hcase with hl | ⟨zs0, hzs0, zs1, hzs1, hf⟩
                · rw [congrFun (setTroubles_zone_status st z' _) z] at hl
                  exact Or.inl hl
                · rw [congrFun (setTroubles_zone_status st z' _) z] at hzs0
                  exact Or.inr ⟨zs0, hzs0, zs1, hzs1, hf⟩
        · rw [if_neg h3] at h
          by_cases h4 : k = .RfLowBatteryRestore ∨ k = .OtherTroubleRestore ∨
              k = .LowBatteryRestore
          · rw [if_pos h4] at h
            unfold handle_zone_trouble_restore at h
            cases hzs : st.zone_status z' <;> rw [hzs] at h
            · cases h
            · rename_i zs
              by_cases htr : zs.trouble <;>
                simp only [htr, if_true, if_false, Bool.false_eq_true] at h
              · cases hts : st.zone_troubles z' <;> rw [hts] at h
                · cases h
                · rename_i ts
                  by_cases hemp :
                      (if SystemEventKind.NAME k ∈ ts then
                        ts.erase (SystemEventKind.NAME k) else ts) = []
                  · simp only [hemp, ite_true, if_true, eq_self_iff_true,
                      Except.ok.injEq] at h
                    subst h
                    have hcase := zone_status_cases_setZone
                      (st.setTroubles z' ([] : List String)) z' zs
                      { zs with trouble := false }
                      (by rw [setTroubles_zone_status]; exact hzs)
                      (Or.inr (Or.inl (by rw [htr]; rfl))) z
                    rcases hcase with hl | ⟨zs0, hzs0, zs1, hzs1, hf⟩
                    · rw [congrFun (setTroubles_zone_status st z' _) z] at hl
                      exact Or.inl hl
                    · rw [congrFun (setTroubles_zone_status st z' _) z] at hzs0
                      exact Or.inr ⟨zs0, hzs0, zs1, hzs1, hf⟩
                  · simp only [hemp, ite_false, if_false, Except.ok.injEq] at h
                    subst h
                    exact Or.inl (congrFun (setTroubles_zone_status st z' _) z)
              · cases h
                exact Or.inl rfl
          · rw [if_neg h4] at h
            by_cases h5 : k = .OtherBypass
            · rw [if_pos h5] at h
              unfold handle_zone_bypass at h
              cases hzs : st.zone_status z' <;> rw [hzs] at h
              · cases h
              · rename_i zs
                by_cases ha : zs.bypassed <;> simp [ha] at h <;> subst h
                · exact Or.inl rfl
                · refine zone_status_cases_setZone st z' zs _ hzs
                    (Or.inr (Or.inr ?_)) z
                  have ha' : zs.bypassed = false := by simpa using ha
                  rw [ha']
                  rfl
            · rw [if_neg h5] at h
              by_cases h6 : k = .OtherUnbypass
              · rw [if_pos h6] at h
                unfold handle_zone_unbypass at h
                cases hzs : st.zone_status z' <;> rw [hzs] at h
                · cases h
                · rename_i zs
                  by_cases ha : zs.bypassed <;> simp [ha] at h <;> subst h
                  · refine zone_status_cases_setZone st z' zs _ hzs
                      (Or.inr (Or.inr ?_)) z
                    rw [ha]
                    rfl
                  · exact Or.inl rfl
              · rw [if_neg h6] at h
                by_cases h7 : k = .FaultEvent
                · rw [if_pos h7] at h
                  cases h
                · rw [if_neg h7] at h
                  by_cases h8 : k = .FaultRestoreEvent
                  · rw [if_pos h8] at h
                    cases h
                  · rw [if_neg h8] at h
                    cases h
                    exact Or.inl rfl

end VistaTurbo

namespace VistaTurbo

/-! ## Claim theorems -/

/-- C1: the claim says a well-formed `N`/`Q` frame parses into a
`SystemEventNotification` without raising.  In the code,
`SystemEventNotification.__init__` calls `SystemEvent.event_for_code` with
two arguments while its signature requires three (`zones` is missing), so
CPython raises `TypeError` on every such frame.  Evaluated here at the
test suite's own frame `14NQ2B14231021020038`: framing and checksum pass,
the event code `0x2B` and subject `14` decode, and then the call raises;
the intended three-argument call would have produced a `FaultEvent`. -/
theorem c1_parse_system_event_notification_raises_type_error :
    MessagePacket_parse "14NQ2B14231021020038"
      = .error (.typeErrorMissingArg "event_for_code" "zones") ∧
    parse_message "14NQ2B14231021020038" = .ok ('N', 'Q', "2B1423102102") ∧
    event_for_code 0x2B 14 (fun _ => none) = .known .FaultEvent 14 none := by
  refine ⟨by decide, by decide, rfl⟩

/-- C2 counterexample: the claim says a checksum error is raised iff the
trailer differs from the checksum byte "rendered as 2 uppercase hex
digits".  The code renders with `'%2X'` (space padded).  The frame
`08xxTT00` has declared length 8 = actual length and checksum byte 0,
whose two-hex-digit rendering is `00` - exactly the trailer - yet
`_parse_message` raises a checksum error because it computed `' 0'`. -/
theorem c2_counterexample_zero_padded_checksum_rejected :
    parse_message "08xxTT00" = .error (.messageChecksum "08xxTT00" "00" " 0") ∧
    crcByte "08xxTT00" = 0 ∧ toHex2 (crcByte "08xxTT00") = "00" ∧
    pyLast2 "08xxTT00" = "00" ∧
    int_base16 (pySlice "08xxTT00" 0 2) = .ok 8 := by
  refine ⟨by decide, by decide, by decide, by decide, by decide⟩

/-- C2 amended: for every frame whose declared length matches its actual
length, `_parse_message` raises a checksum error iff the trailing 2
characters differ from the checksum byte rendered by Python `'%2X'` -
width 2, SPACE padded, uppercase hex - which coincides with the claim's
2-hex-digit rendering exactly when the byte is at least 0x10; and each of
the three generated request literals (whose checksum bytes are all at
least 0x10) is accepted and dispatched to its request variant. -/
theorem c2_amended_checksum_iff_space_padded_rendering (raw : String)
    (h : int_base16 (pySlice raw 0 2) = .ok raw.data.length) :
    (isChecksumError (parse_message raw) = true
      ↔ pyLast2 raw ≠ fmt2X (crcByte raw)) ∧
    (∀ n : Nat, 16 ≤ n → n < 256 → fmt2X n = toHex2 n) ∧
    MessagePacket_parse ArmingStatusRequest_generate
      = .ok (.armingStatusRequest "08as0064" "" false) ∧
    MessagePacket_parse ZoneStatusRequest_generate
      = .ok (.zoneStatusRequest "08zs004B" "" false) ∧
    MessagePacket_parse ZonePartitionRequest_generate
      = .ok (.zonePartitionRequest "08zp004E" "" false) := by
  refine ⟨?_, ?_, by decide, by decide, by decide⟩
  · unfold parse_message
    rw [h]
    simp only [ne_eq, not_true_eq_false, if_false, ite_not]
    by_cases hc : fmt2X (crcByte raw) = pyLast2 raw
    · rw [if_pos hc]
      cases h2 : raw.data.get? 2 <;> cases h3 : raw.data.get? 3 <;>
        simp [isChecksumError, hc]
    · rw [if_neg hc]
      simp only [isChecksumError, true_iff]
      exact fun hx => hc hx.symm
  · intro n h16 h256
    unfold fmt2X toHex2
    rw [if_neg (by omega)]

/-- Witness for the C2 theorem at the generated arming-status request
frame `08as0064` (declared length `08` = 8 = actual length). -/
theorem c2_amended_checksum_iff_space_padded_rendering_witness :
    ((isChecksumError (parse_message "08as0064") = true
      ↔ pyLast2 "08as0064" ≠ fmt2X (crcByte "08as0064")) ∧
    (∀ n : Nat, 16 ≤ n → n < 256 → fmt2X n = toHex2 n) ∧
    MessagePacket_parse ArmingStatusRequest_generate
      = .ok (.armingStatusRequest "08as0064" "" false) ∧
    MessagePacket_parse ZoneStatusRequest_generate
      = .ok (.zoneStatusRequest "08zs004B" "" false) ∧
    MessagePacket_parse ZonePartitionRequest_generate
      = .ok (.zonePartitionRequest "08zp004E" "" false)) :=
  c2_amended_checksum_iff_space_padded_rendering "08as0064" (by decide)

/-- C3 counterexample: the claim says no two classes participating in
`event_for_code` dispatch share a `CODE`.  The intermediate classes
`AlarmEvent` and `ArmDisarmEvent` are in the dispatch set with the
inherited default `CODE = 0`, which `PerimeterAlarm` also declares; since
`AlarmEvent` is scanned first, event code 0 dispatches to a bare
`AlarmEvent` (named "Unknown Event") and `PerimeterAlarm` is shadowed. -/
theorem c3_counterexample_code_zero_collision :
    SystemEventKind.AlarmEvent ∈ subclasses_recursive_SystemEvent ∧
    SystemEventKind.PerimeterAlarm ∈ subclasses_recursive_SystemEvent ∧
    SystemEventKind.ArmDisarmEvent ∈ subclasses_recursive_SystemEvent ∧
    SystemEventKind.CODE .AlarmEvent = 0 ∧
    SystemEventKind.CODE .ArmDisarmEvent = 0 ∧
    SystemEventKind.CODE .PerimeterAlarm = 0 ∧
    event_for_code 0 5 (fun _ => none) = .known .AlarmEvent 5 none ∧
    SystemEventKind.NAME .AlarmEvent = "Unknown Event" := by
  refine ⟨by decide, by decide, by decide, rfl, rfl, rfl, rfl, rfl⟩

/-- C3 amended: among the kinds whose class bodies declare their own
`CODE` (every dispatch participant except the intermediates `AlarmEvent`
and `ArmDisarmEvent`, which inherit the default 0), all numeric codes are
pairwise distinct. -/
theorem c3_amended_declared_codes_unique :
    declaredCodeKinds.Pairwise
      (fun a b => SystemEventKind.CODE a ≠ SystemEventKind.CODE b) := by
  decide

end VistaTurbo

namespace VistaTurbo

/-- C4 counterexample: the claimed iff fails in a reachable state.  From
the empty initial state, one decoded `ZoneStatusReport` carrying
`ZoneState(2)` for zone 1 (trouble bit set - the spec's own end-to-end
scenario ships such a snapshot) leaves zone 1 with `trouble = true` while
its freshly initialized trouble-cause set is empty. -/
theorem c4_counterexample_trouble_flag_with_empty_causes :
    Reachable stC4x ∧
    stC4x.zone_status 1 = some (ZoneState.init 2) ∧
    (ZoneState.init 2).trouble = true ∧
    stC4x.zone_troubles 1 = some [] := by
  refine ⟨@Reachable.step MonitorState.initial stC4x
    (zoneReportMsg [(1, ZoneState.init 2)]) Reachable.init rfl,
    by decide, by decide, by decide⟩

/-- C4 amended: the invariant holds in one direction - in every reachable
monitor state, a zone key present in both maps whose trouble-cause set is
non-empty has its `trouble` flag set.  (The converse direction fails
whenever a zone snapshot reports a trouble bit, as the counterexample
shows.) -/
theorem c4_amended_nonempty_causes_imply_trouble (s : MonitorState)
    (hs : Reachable s) (z : Nat) (ts : List String) (zs : ZoneState)
    (hts : s.zone_troubles z = some ts) (hzs : s.zone_status z = some zs)
    (hne : ts ≠ []) : zs.trouble = true := by
  obtain ⟨zs0, hzs0, ht0⟩ := reachable_troubleInv s hs z ts hts hne
  rw [hzs] at hzs0
  cases hzs0
  exact ht0

/-- Witness for the C4 theorem: the reachable state after a clean zone-1
snapshot followed by an `RfLowBattery` trouble event has cause set
`["RF Low Battery"]` and trouble flag set. -/
theorem c4_amended_nonempty_causes_imply_trouble_witness :
    ({ ZoneState.init 0 with trouble := true } : ZoneState).trouble = true :=
  c4_amended_nonempty_causes_imply_trouble stW2
    (@Reachable.step stW1 stW2 (senMsg .RfLowBattery 1)
      (@Reachable.step MonitorState.initial stW1
        (zoneReportMsg [(1, ZoneState.init 0)]) Reachable.init rfl) rfl)
    1 ["RF Low Battery"] { ZoneState.init 0 with trouble := true }
    (by decide) (by decide) (by decide)

/-- C5: the accumulation half of the claim holds (two distinct
trouble-kind events yield a 2-element cause set with `trouble = true`),
but the restore half fails on the code: `_handle_zone_trouble_restore`
looks for the restore event's own `NAME` ("RF Low Battery Restore") in the
cause set, which stores the trouble events' names ("RF Low Battery"), so
no matching restore ever removes a cause - after both restores the set
still has both causes and the flag is still true, where the claim expects
a 1-element set and then `trouble = false`. -/
theorem c5_trouble_restores_never_remove_causes :
    (run_messages MonitorState.initial
      [zoneReportMsg [(1, ZoneState.init 0)],
       senMsg .RfLowBattery 1, senMsg .OtherTrouble 1]).map
        (fun s => (s.zone_troubles 1, (s.zone_status 1).map ZoneState.trouble))
      = .ok (some ["RF Low Battery", "Other Trouble"], some true) ∧
    (run_messages MonitorState.initial
      [zoneReportMsg [(1, ZoneState.init 0)],
       senMsg .RfLowBattery 1, senMsg .OtherTrouble 1,
       senMsg .RfLowBatteryRestore 1, senMsg .OtherTroubleRestore 1]).map
        (fun s => (s.zone_troubles 1, (s.zone_status 1).map ZoneState.trouble))
      = .ok (some ["RF Low Battery", "Other Trouble"], some true) ∧
    SystemEventKind.NAME .RfLowBattery = "RF Low Battery" ∧
    SystemEventKind.NAME .RfLowBatteryRestore = "RF Low Battery Restore" ∧
    SystemEventKind.NAME .OtherTrouble = "Other Trouble" ∧
    SystemEventKind.NAME .OtherTroubleRestore = "Other Trouble Restore" := by
  refine ⟨by decide, by decide, rfl, rfl, rfl, rfl⟩

/-- C6 counterexample: a second `ZoneStatusReport` does NOT leave the
accumulated causes untouched - after a snapshot, a trouble event (cause
set `["RF Low Battery"]`), and a second identical snapshot, zone 1's cause
set is empty again. -/
theorem c6_counterexample_second_snapshot_discards_causes :
    (run_messages MonitorState.initial
      [zoneReportMsg [(1, ZoneState.init 0)], senMsg .RfLowBattery 1]).map
        (fun s => s.zone_troubles 1) = .ok (some ["RF Low Battery"]) ∧
    (run_messages MonitorState.initial
      [zoneReportMsg [(1, ZoneState.init 0)], senMsg .RfLowBattery 1,
       zoneReportMsg [(1, ZoneState.init 0)]]).map
        (fun s => s.zone_troubles 1) = .ok (some []) := by
  refine ⟨by decide, by decide⟩

/-- C6 amended: EVERY `ZoneStatusReport` (not only the first) merges its
zones into `zone_status` and then rebinds `zone_troubles` to a fresh map
with an empty cause set for each current zone key, discarding whatever
causes had accumulated; `arming_status` and `zone_partitions` are
untouched. -/
theorem c6_amended_every_snapshot_resets_troubles (st : MonitorState)
    (raw d : String) (fp : Bool) (zones : List (Nat × ZoneState))
    (st' : MonitorState)
    (h : process_message st (.zoneStatusReport raw d fp zones) = .ok st')
    (z : Nat) :
    st'.zone_status z = dictUpdate st.zone_status zones z ∧
    (st'.zone_status z ≠ none → st'.zone_troubles z = some []) ∧
    (st'.zone_status z = none → st'.zone_troubles z = none) ∧
    st'.arming_status z = st.arming_status z ∧
    st'.zone_partitions z = st.zone_partitions z := by
  cases h
  refine ⟨rfl, ?_, ?_, rfl, rfl⟩
  · intro hne
    simp only
    rw [if_pos (Option.isSome_iff_ne_none.mpr hne)]
  · intro hnone
    have hnone' : dictUpdate st.zone_status zones z = none := hnone
    simp only
    rw [if_neg (by simp [hnone'])]

/-- Witness for the C6 theorem at a concrete snapshot over the empty
initial state. -/
theorem c6_amended_every_snapshot_resets_troubles_witness :
    (stC6w.zone_status 1
      = dictUpdate MonitorState.initial.zone_status [(1, ZoneState.init 2)] 1 ∧
    (stC6w.zone_status 1 ≠ none → stC6w.zone_troubles 1 = some []) ∧
    (stC6w.zone_status 1 = none → stC6w.zone_troubles 1 = none) ∧
    stC6w.arming_status 1 = MonitorState.initial.arming_status 1 ∧
    stC6w.zone_partitions 1 = MonitorState.initial.zone_partitions 1) :=
  c6_amended_every_snapshot_resets_troubles MonitorState.initial "" "" true
    [(1, ZoneState.init 2)] stC6w rfl 1

/-- C7 counterexample: a `FaultEvent` for the known zone 14 does not get
"logged at error severity while processing continues" - `_handle_zone_fault`
raises `NotImplementedError` as its first statement, the run loop has no
handler, and `run_messages` aborts with the exception, never reaching the
next message. -/
theorem c7_counterexample_fault_event_aborts_loop :
    st14.zone_status 14 = some (ZoneState.init 0) ∧
    run_messages st14 [senMsg .FaultEvent 14, zoneReportMsg [(1, ZoneState.init 0)]]
      = .error (.notImplementedError
          "Not implemented; also how to handle NC/NO zones?") := by
  exact ⟨by decide, rfl⟩

/-- C7 amended: delivering a `FaultEvent` or `FaultRestoreEvent` to the
monitor raises `NotImplementedError` before any state is read or written
(the raise is the handler's first statement, so this holds for every
monitor state and every zone, known or not), and the exception propagates
out of the message loop: the loop result is the error and no later message
is processed. -/
theorem c7_amended_fault_events_raise_uncaught (st : MonitorState) (z : Nat)
    (name : Option String) (raw d : String) (fp : Bool)
    (etr zu mi ho da mo : Nat) (rest : List ParsedMessage) :
    handle_event st (.known .FaultEvent z name)
      = .error (.notImplementedError
          "Not implemented; also how to handle NC/NO zones?") ∧
    handle_event st (.known .FaultRestoreEvent z name)
      = .error (.notImplementedError "not implemented - also NC/NO?") ∧
    run_messages st (.systemEventNotification raw d fp etr zu
        (.known .FaultEvent z name) mi ho da mo :: rest)
      = .error (.notImplementedError
          "Not implemented; also how to handle NC/NO zones?") := by
  exact ⟨rfl, rfl, rfl⟩

end VistaTurbo

namespace VistaTurbo

/-- C8: for every value 0-15, `ZoneState(value)` sets `closed` iff bit 0
is clear, `open` iff bit 0 is set, `trouble`/`alarm`/`bypassed` iff bits
1/2/3 are set, and its string form joins exactly the set flags with `|` in
the fixed order closed/open, trouble, alarm, bypassed; in particular
values 0, 1, 7 and 11 give the four strings the claim lists. -/
theorem c8_zone_state_bitfield_and_str :
    (∀ v : Fin 16,
      (ZoneState.init v.val).closed = !(v.val.testBit 0) ∧
      (ZoneState.init v.val).isOpen = v.val.testBit 0 ∧
      (ZoneState.init v.val).trouble = v.val.testBit 1 ∧
      (ZoneState.init v.val).alarm = v.val.testBit 2 ∧
      (ZoneState.init v.val).bypassed = v.val.testBit 3 ∧
      (ZoneState.init v.val).str = String.intercalate "|"
        ((if v.val.testBit 0 then ["OPEN"] else ["CLOSED"]) ++
         (if v.val.testBit 1 then ["TROUBLE"] else []) ++
         (if v.val.testBit 2 then ["ALARM"] else []) ++
         (if v.val.testBit 3 then ["BYPASSED"] else []))) ∧
    (ZoneState.init 0).str = "CLOSED" ∧ (ZoneState.init 1).str = "OPEN" ∧
    (ZoneState.init 7).str = "OPEN|TROUBLE|ALARM" ∧
    (ZoneState.init 11).str = "OPEN|TROUBLE|BYPASSED" := by
  decide

/-- C9 counterexample: the claim quantifies over EVERY registered
type/subtype pair, but for the `(Z, S)` registration the lowercase frame
does not decode "with all other fields equal": the 104-character test
frame decodes as a `ZoneStatusReport` while its lowercased counterpart
(checksum adjusted) dispatches to the DIFFERENT variant
`ZoneStatusRequest` - the variants disagree, not just `from_panel`. -/
theorem c9_counterexample_case_pair_maps_to_different_variant :
    (MessagePacket_parse zsUpperFrame).map ParsedMessage.isZoneStatusReport
      = .ok true ∧
    (MessagePacket_parse zsLowerFrame).map ParsedMessage.isZoneStatusRequest
      = .ok true ∧
    (MessagePacket_parse zsLowerFrame).map ParsedMessage.isZoneStatusReport
      = .ok false := by
  set_option maxRecDepth 4000 in refine ⟨by decide, by decide, by decide⟩

/-- C9 amended: direction discrimination holds for the three command-echo
registrations, whose uppercase and lowercase letters dispatch to the SAME
variant (`ArmAway` is `{A,a}` x `{A,a}`, `ArmHome` `{A,a}` x `{H,h}`,
`Disarm` `{A,a}` x `{D,d}`): for every payload, the uppercase frame
decodes with `from_panel = true` and the lowercase frame with
`from_panel = false`, with the variant and all other decoded fields
(`data`, `user`, `user_code`) equal.  For the request/report and
notification registrations the opposite-case frame dispatches to a
different variant (or `UnknownMessage`), as the counterexample shows. -/
theorem c9_amended_echo_direction_discrimination (mid : String) (u : Nat)
    (hlen : mid.data.length + 6 ≤ 255)
    (hu : int_base16 (pySlice (pyDropLast2 mid) 0 2) = .ok u) :
    (MessagePacket_parse (buildFrame 'A' 'A' mid)
        = .ok (.armAway (buildFrame 'A' 'A' mid) (pyDropLast2 mid) true u
            (String.mk ((pyDropLast2 mid).data.drop 2))) ∧
      MessagePacket_parse (buildFrame 'a' 'a' mid)
        = .ok (.armAway (buildFrame 'a' 'a' mid) (pyDropLast2 mid) false u
            (String.mk ((pyDropLast2 mid).data.drop 2)))) ∧
    (MessagePacket_parse (buildFrame 'A' 'H' mid)
        = .ok (.armHome (buildFrame 'A' 'H' mid) (pyDropLast2 mid) true u
            (String.mk ((pyDropLast2 mid).data.drop 2))) ∧
      MessagePacket_parse (buildFrame 'a' 'h' mid)
        = .ok (.armHome (buildFrame 'a' 'h' mid) (pyDropLast2 mid) false u
            (String.mk ((pyDropLast2 mid).data.drop 2)))) ∧
    (MessagePacket_parse (buildFrame 'A' 'D' mid)
        = .ok (.disarm (buildFrame 'A' 'D' mid) (pyDropLast2 mid) true u
            (String.mk ((pyDropLast2 mid).data.drop 2))) ∧
      MessagePacket_parse (buildFrame 'a' 'd' mid)
        = .ok (.disarm (buildFrame 'a' 'd' mid) (pyDropLast2 mid) false u
            (String.mk ((pyDropLast2 mid).data.drop 2)))) := by
  refine ⟨⟨?_, ?_⟩, ⟨?_, ?_⟩, ⟨?_, ?_⟩⟩
  · unfold MessagePacket_parse
    rw [parse_message_buildFrame _ _ _ hlen]
    split
    · rename_i e heq
      cases heq
    · rename_i msgtype subtype data heq
      injection heq with heq
      obtain ⟨h1, h2⟩ := Prod.mk.inj heq
      obtain ⟨h2, h3⟩ := Prod.mk.inj h2
      subst h1
      subst h2
      subst h3
      rw [if_pos (show ('A' = 'A' ∨ 'A' = 'a') ∧ ('A' = 'A' ∨ 'A' = 'a') by decide)]
      rw [armMessageFields_eq _ _ hu]
      rfl
  · unfold MessagePacket_parse
    rw [parse_message_buildFrame _ _ _ hlen]
    split
    · rename_i e heq
      cases heq
    · rename_i msgtype subtype data heq
      injection heq with heq
      obtain ⟨h1, h2⟩ := Prod.mk.inj heq
      obtain ⟨h2, h3⟩ := Prod.mk.inj h2
      subst h1
      subst h2
      subst h3
      rw [if_pos (show ('a' = 'A' ∨ 'a' = 'a') ∧ ('a' = 'A' ∨ 'a' = 'a') by decide)]
      rw [armMessageFields_eq _ _ hu]
      rfl
  · unfold MessagePacket_parse
    rw [parse_message_buildFrame _ _ _ hlen]
    split
    · rename_i e heq
      cases heq
    · rename_i msgtype subtype data heq
      injection heq with heq
      obtain ⟨h1, h2⟩ := Prod.mk.inj heq
      obtain ⟨h2, h3⟩ := Prod.mk.inj h2
      subst h1
      subst h2
      subst h3
      rw [if_neg (show ¬(('A' = 'A' ∨ 'A' = 'a') ∧ ('H' = 'A' ∨ 'H' = 'a')) by decide)]
      rw [if_pos (show ('A' = 'A' ∨ 'A' = 'a') ∧ ('H' = 'H' ∨ 'H' = 'h') by decide)]
      rw [armMessageFields_eq _ _ hu]
      rfl
  · unfold MessagePacket_parse
    rw [parse_message_buildFrame _ _ _ hlen]
    split
    · rename_i e heq
      cases heq
    · rename_i msgtype subtype data heq
      injection heq with heq
      obtain ⟨h1, h2⟩ := Prod.mk.inj heq
      obtain ⟨h2, h3⟩ := Prod.mk.inj h2
      subst h1
      subst h2
      subst h3
      rw [if_neg (show ¬(('a' = 'A' ∨ 'a' = 'a') ∧ ('h' = 'A' ∨ 'h' = 'a')) by decide)]
      rw [if_pos (show ('a' = 'A' ∨ 'a' = 'a') ∧ ('h' = 'H' ∨ 'h' = 'h') by decide)]
      rw [armMessageFields_eq _ _ hu]
      rfl
  · unfold MessagePacket_parse
    rw [parse_message_buildFrame _ _ _ hlen]
    split
    · rename_i e heq
      cases heq
    · rename_i msgtype subtype data heq
      injection heq with heq
      obtain ⟨h1, h2⟩ := Prod.mk.inj heq
      obtain ⟨h2, h3⟩ := Prod.mk.inj h2
      subst h1
      subst h2
      subst h3
      rw [if_neg (show ¬(('A' = 'A' ∨ 'A' = 'a') ∧ ('D' = 'A' ∨ 'D' = 'a')) by decide)]
      rw [if_neg (show ¬(('A' = 'A' ∨ 'A' = 'a') ∧ ('D' = 'H' ∨ 'D' = 'h')) by decide)]
      rw [if_pos (show ('A' = 'A' ∨ 'A' = 'a') ∧ ('D' = 'D' ∨ 'D' = 'd') by decide)]
      rw [armMessageFields_eq _ _ hu]
      rfl
  · unfold MessagePacket_parse
    rw [parse_message_buildFrame _ _ _ hlen]
    split
    · rename_i e heq
      cases heq
    · rename_i msgtype subtype data heq
      injection heq with heq
      obtain ⟨h1, h2⟩ := Prod.mk.inj heq
      obtain ⟨h2, h3⟩ := Prod.mk.inj h2
      subst h1
      subst h2
      subst h3
      rw [if_neg (show ¬(('a' = 'A' ∨ 'a' = 'a') ∧ ('d' = 'A' ∨ 'd' = 'a')) by decide)]
      rw [if_neg (show ¬(('a' = 'A' ∨ 'a' = 'a') ∧ ('d' = 'H' ∨ 'd' = 'h')) by decide)]
      rw [if_pos (show ('a' = 'A' ∨ 'a' = 'a') ∧ ('d' = 'D' ∨ 'd' = 'd') by decide)]
      rw [armMessageFields_eq _ _ hu]
      rfl

/-- Witness for the C9 theorem at the spec's own example payload: the
built frames are exactly the spec's `0EAA0223450079` / `0Eaa0223450039`
pair, decoding to `ArmAway` with `user = 2`, `user_code = "2345"` and
opposite `from_panel`. -/
theorem c9_amended_echo_direction_discrimination_witness :
    buildFrame 'A' 'A' "02234500" = "0EAA0223450079" ∧
    buildFrame 'a' 'a' "02234500" = "0Eaa0223450039" ∧
    MessagePacket_parse (buildFrame 'A' 'A' "02234500")
      = .ok (.armAway (buildFrame 'A' 'A' "02234500") (pyDropLast2 "02234500")
          true 2 (String.mk ((pyDropLast2 "02234500").data.drop 2))) ∧
    MessagePacket_parse (buildFrame 'a' 'a' "02234500")
      = .ok (.armAway (buildFrame 'a' 'a' "02234500") (pyDropLast2 "02234500")
          false 2 (String.mk ((pyDropLast2 "02234500").data.drop 2))) := by
  have h := c9_amended_echo_direction_discrimination "02234500" 2
    (by decide) (by decide)
  exact ⟨by decide, by decide, h.1.1, h.1.2⟩

/-- C10: every zone transition applied by `_handle_event` (alarm set or
restore, trouble set or restore, bypass or unbypass) mutates at most one
boolean flag of the stored `ZoneState` and never touches its
`_state_numeric`; consequently `__eq__`, `__lt__` and `__repr__` - all
computed from the numeric value alone - give the same results before and
after any monitor transition, and can disagree with the mutated boolean
flags. -/
theorem c10_zone_transitions_preserve_numeric_value (st : MonitorState)
    (evt : EventTypes) (st' : MonitorState)
    (h : handle_event st evt = .ok st') (z : Nat) (other : ZoneState) :
    (st'.zone_status z).map ZoneState.state_numeric
      = (st.zone_status z).map ZoneState.state_numeric ∧
    (st'.zone_status z).map ZoneState.pyRepr
      = (st.zone_status z).map ZoneState.pyRepr ∧
    (st'.zone_status z).map (fun a => a.pyEq other)
      = (st.zone_status z).map (fun a => a.pyEq other) ∧
    (st'.zone_status z).map (fun a => a.pyLt other)
      = (st.zone_status z).map (fun a => a.pyLt other) ∧
    (∀ zs zs', st.zone_status z = some zs → st'.zone_status z = some zs' →
      zs' = zs ∨ zs' = { zs with alarm := !zs.alarm } ∨
      zs' = { zs with trouble := !zs.trouble } ∨
      zs' = { zs with bypassed := !zs.bypassed }) := by
  rcases handle_event_zone_status_cases h z with hl | ⟨zs0, hzs0, zs1, hzs1, hf⟩
  · refine ⟨by rw [hl], by rw [hl], by rw [hl], by rw [hl], ?_⟩
    intro zs zs' h1 h2
    rw [hl, h1] at h2
    cases h2
    exact Or.inl rfl
  · have hnum : zs1.state_numeric = zs0.state_numeric := by
      rcases hf with hf | hf | hf <;> rw [hf]
    refine ⟨?_, ?_, ?_, ?_, ?_⟩
    · rw [hzs0, hzs1]
      simp [hnum]
    · rw [hzs0, hzs1]
      simp [ZoneState.pyRepr, hnum]
    · rw [hzs0, hzs1]
      simp [ZoneState.pyEq, hnum]
    · rw [hzs0, hzs1]
      simp [ZoneState.pyLt, hnum]
    · intro zs zs' h1 h2
      rw [hzs0] at h1
      cases h1
      rw [hzs1] at h2
      cases h2
      rcases hf with hf | hf | hf
      · exact Or.inr (Or.inl hf)
      · exact Or.inr (Or.inr (Or.inl hf))
      · exact Or.inr (Or.inr (Or.inr hf))

/-- Witness for the C10 theorem: a `PerimeterAlarm` on zone 1 of a
freshly snapshotted monitor flips only the `alarm` flag, preserving the
numeric value, `__repr__`, `__eq__` and `__lt__` results. -/
theorem c10_zone_transitions_preserve_numeric_value_witness :
    (stC10w.zone_status 1).map ZoneState.state_numeric
      = (stW1.zone_status 1).map ZoneState.state_numeric ∧
    (stC10w.zone_status 1).map ZoneState.pyRepr
      = (stW1.zone_status 1).map ZoneState.pyRepr ∧
    (stC10w.zone_status 1).map (fun a => a.pyEq (ZoneState.init 3))
      = (stW1.zone_status 1).map (fun a => a.pyEq (ZoneState.init 3)) ∧
    (stC10w.zone_status 1).map (fun a => a.pyLt (ZoneState.init 3))
      = (stW1.zone_status 1).map (fun a => a.pyLt (ZoneState.init 3)) ∧
    ({ ZoneState.init 0 with alarm := true } = ZoneState.init 0 ∨
     { ZoneState.init 0 with alarm := true }
       = { ZoneState.init 0 with alarm := !(ZoneState.init 0).alarm } ∨
     { ZoneState.init 0 with alarm := true }
       = { ZoneState.init 0 with trouble := !(ZoneState.init 0).trouble } ∨
     { ZoneState.init 0 with alarm := true }
       = { ZoneState.init 0 with bypassed := !(ZoneState.init 0).bypassed }) := by
  have h := c10_zone_transitions_preserve_numeric_value stW1
    (.known .PerimeterAlarm 1 none) stC10w rfl 1 (ZoneState.init 3)
  exact ⟨h.1, h.2.1, h.2.2.1, h.2.2.2.1,
    h.2.2.2.2 (ZoneState.init 0) { ZoneState.init 0 with alarm := true }
      (by decide) (by decide)⟩

end VistaTurbo
